import Mathlib

/-!
Verification of the picotts runtime quality/performance layer.

Shallow embedding of:
  - `src/pico/lib/picodtcache.c` / `.h`  (decision-tree result cache)
  - `src/pico/lib/picoqualityenhance.c` / `.h`  (voice/prosody parameter
    model, profiles, white-noise generator)
  - `src/pico/lib/picofixedpoint.h`  (Q15 saturating arithmetic)

Machine integers are embedded as `Nat`/`Int` with explicit `% 2^w` at the
points where the C code performs modular (unsigned or two's-complement)
arithmetic.  `picoos_single` (IEEE single float) is embedded as `ℚ`: the
embedded operations on it are only comparisons, copies and assignments of
constants that are exactly representable in IEEE single precision, so the
rational model is exact on those operations (NaN inputs are outside this
model).
-/

namespace Pico

/-- Modulus of `picoos_uint32` arithmetic. -/
def U32 : Nat := 4294967296

/-- Two's-complement narrowing of an integer to `picoos_int16`,
the effect of a C cast/conversion to a signed 16-bit integer. -/
def int16OfInt (z : Int) : Int := (z + 32768) % 65536 - 32768

/-! ## Decision-tree cache (`picodtcache.c`) -/

/-- `PICO_DT_CACHE_SIZE`: 256 in the desktop configuration
(128 when `PICO_EMBEDDED_PLATFORM` is set; the claims are independent of
which power of two is chosen, we fix the desktop value). -/
def PICO_DT_CACHE_SIZE : Nat := 256

/-- `picodt_cache_entry_t`. -/
structure picodt_cache_entry_t where
  context_hash : Nat
  pdf_index : Nat
  tree_id : Nat
  valid : Bool
  access_count : Nat
deriving DecidableEq

/-- `picodt_cache_stats_t` (all fields `picoos_uint32`). -/
structure picodt_cache_stats_t where
  hits : Nat
  misses : Nat
  collisions : Nat
  evictions : Nat
deriving DecidableEq

/-- `picodt_cache_t`.  The fixed C array `entries[PICO_DT_CACHE_SIZE]` is
embedded as a function; every access in the code is through an index
already reduced by the `& (PICO_DT_CACHE_SIZE - 1)` mask. -/
structure picodt_cache_t where
  entries : Nat → picodt_cache_entry_t
  stats : picodt_cache_stats_t
  enabled : Bool
  clock : Nat

/-- `get_cache_index`: `hash & (PICO_DT_CACHE_SIZE - 1)`. -/
def get_cache_index (hash : Nat) : Nat := hash &&& (PICO_DT_CACHE_SIZE - 1)

/-- Pointwise update of the entries array (a C assignment
`entries[i] = e`). -/
def updEntry (f : Nat → picodt_cache_entry_t) (i : Nat) (e : picodt_cache_entry_t) :
    Nat → picodt_cache_entry_t :=
  fun j => if j = i then e else f j

/-- `picodt_cache_is_enabled` (the NULL-pointer disjunct is not modelled:
the cache is passed by value). -/
def picodt_cache_is_enabled (c : picodt_cache_t) : Bool := c.enabled

/-- The condition `entries[idx].valid && entries[idx].context_hash == hash
&& entries[idx].tree_id == tree_id` tested by lookup, factored over the
entry value. -/
def entry_matches (e : picodt_cache_entry_t) (context_hash tree_id : Nat) : Bool :=
  e.valid && (e.context_hash == context_hash) && (e.tree_id == tree_id)

/-- Loop body of `find_lru_entry`, iterating over the remaining probe
offsets with the running `lru_index` and `min_access` accumulator. -/
def findLruAux (c : picodt_cache_t) (start_index : Nat) :
    List Nat → Nat → Nat → Nat
  | [], lru_index, _ => lru_index
  | o :: rest, lru_index, min_access =>
      let idx := (start_index + o) &&& (PICO_DT_CACHE_SIZE - 1)
      if (c.entries idx).valid = false then idx
      else if (c.entries idx).access_count < min_access then
        findLruAux c start_index rest idx (c.entries idx).access_count
      else
        findLruAux c start_index rest lru_index min_access

/-- `find_lru_entry`: scans the 4-slot window `start_index .. start_index+3`
(wrapping), returns the first empty slot, else the slot with the smallest
`access_count` (ties to the first found; `min_access` starts at 255). -/
def find_lru_entry (c : picodt_cache_t) (start_index : Nat) : Nat :=
  findLruAux c start_index [0, 1, 2, 3] start_index 255

/-- The entry-write sequence shared by both insert paths:
stores the triple, sets `valid`, stamps `access_count = clock++`
(both `picoos_uint8`, hence the `% 256`). -/
def writeEntry (c : picodt_cache_t) (idx context_hash tree_id pdf_index : Nat) :
    picodt_cache_t :=
  { c with
      entries := updEntry c.entries idx
        { context_hash := context_hash, pdf_index := pdf_index, tree_id := tree_id,
          valid := true, access_count := c.clock % 256 },
      clock := (c.clock + 1) % 256 }

/-- The access-order bump `entries[idx].access_count = clock++` performed
on a cache hit. -/
def bumpAccess (c : picodt_cache_t) (idx : Nat) : picodt_cache_t :=
  { c with
      entries := updEntry c.entries idx
        { c.entries idx with access_count := c.clock % 256 },
      clock := (c.clock + 1) % 256 }

/-- The collision-probe loop of `picodt_cache_lookup` (`i = 1..3`):
returns the first probed index holding a valid matching entry. -/
def lookupProbe (c : picodt_cache_t) (context_hash tree_id index : Nat) :
    List Nat → Option Nat
  | [] => none
  | i :: rest =>
      let idx := (index + i) &&& (PICO_DT_CACHE_SIZE - 1)
      if entry_matches (c.entries idx) context_hash tree_id then some idx
      else lookupProbe c context_hash tree_id index rest

/-- `picodt_cache_lookup`.  Returns the C out-parameter/result pair as
`Option pdf_index` together with the mutated cache (the `pdf_index == NULL`
early-out is not modelled; statistics counters are `picoos_uint32`). -/
def picodt_cache_lookup (c : picodt_cache_t) (context_hash tree_id : Nat) :
    Option Nat × picodt_cache_t :=
  if picodt_cache_is_enabled c = false then (none, c)
  else
    let index := get_cache_index context_hash
    if entry_matches (c.entries index) context_hash tree_id then
      (some (c.entries index).pdf_index,
       { bumpAccess c index with
           stats := { c.stats with hits := (c.stats.hits + 1) % U32 } })
    else
      match lookupProbe c context_hash tree_id index [1, 2, 3] with
      | some idx =>
          (some (c.entries idx).pdf_index,
           { bumpAccess c idx with
               stats := { c.stats with
                           hits := (c.stats.hits + 1) % U32,
                           collisions := (c.stats.collisions + 1) % U32 } })
      | none =>
          (none, { c with stats := { c.stats with misses := (c.stats.misses + 1) % U32 } })

/-- `picodt_cache_insert`. -/
def picodt_cache_insert (c : picodt_cache_t) (context_hash tree_id pdf_index : Nat) :
    picodt_cache_t :=
  if picodt_cache_is_enabled c = false then c
  else
    let index := get_cache_index context_hash
    if (c.entries index).valid = false then
      writeEntry c index context_hash tree_id pdf_index
    else
      let lru := find_lru_entry c index
      let c1 :=
        if (c.entries lru).valid then
          { c with stats := { c.stats with evictions := (c.stats.evictions + 1) % U32 } }
        else c
      writeEntry c1 lru context_hash tree_id pdf_index

/-- `picodt_cache_clear`: invalidates every slot (only `valid` and
`access_count` are rewritten), zeroes statistics and the clock. -/
def picodt_cache_clear (c : picodt_cache_t) : picodt_cache_t :=
  { entries := fun i => { c.entries i with valid := false, access_count := 0 },
    stats := { hits := 0, misses := 0, collisions := 0, evictions := 0 },
    enabled := c.enabled,
    clock := 0 }

/-- The cache state produced by a successful `picodt_cache_initialize`
(allocation aside): every slot invalid with zero access count, zero
statistics and clock, cache enabled.  The hash/pdf/tree fields are left
uninitialized by the C code; they are unobservable behind `valid = 0`
and are modelled as 0. -/
def picodt_cache_init_state : picodt_cache_t :=
  { entries := fun _ =>
      { context_hash := 0, pdf_index := 0, tree_id := 0, valid := false, access_count := 0 },
    stats := { hits := 0, misses := 0, collisions := 0, evictions := 0 },
    enabled := true,
    clock := 0 }

/-- `picodt_cache_hit_rate`: `(picoos_uint8)((hits * 100) / total)` with
`total = hits + misses`, all in `picoos_uint32` arithmetic, 0 when
`total == 0` (the NULL check is not modelled). -/
def picodt_cache_hit_rate (c : picodt_cache_t) : Nat :=
  let total := (c.stats.hits + c.stats.misses) % U32
  if total = 0 then 0
  else (((c.stats.hits * 100) % U32) / total) % 256

/-- The 4-slot probe window that both `picodt_cache_lookup` and
`picodt_cache_insert` restrict themselves to for a given hash. -/
def probeWindow (context_hash : Nat) : List Nat :=
  [get_cache_index context_hash,
   (get_cache_index context_hash + 1) % PICO_DT_CACHE_SIZE,
   (get_cache_index context_hash + 2) % PICO_DT_CACHE_SIZE,
   (get_cache_index context_hash + 3) % PICO_DT_CACHE_SIZE]

/-! ## Fixed-point primitives (`picofixedpoint.h`) -/

/-- `PICO_Q15_MAX = (int16_t)0x7FFF`. -/
def PICO_Q15_MAX : Int := 32767

/-- `PICO_Q15_MIN = (int16_t)0x8000`. -/
def PICO_Q15_MIN : Int := -32768

/-- `pico_q15_add_sat`: the sum is formed in `int32_t` (exact for 16-bit
operands) and clamped into the Q15 range before narrowing. -/
def pico_q15_add_sat (a b : Int) : Int :=
  let result := a + b
  if result > PICO_Q15_MAX then PICO_Q15_MAX
  else if result < PICO_Q15_MIN then PICO_Q15_MIN
  else result

/-! ## White-noise generator (`picoqualityenhance.c`) -/

/-- `pico_generate_white_noise`: advances the LCG seed
(`picoos_uint32`, natural wraparound) and returns the new seed together
with the emitted sample.  The C return expression is
`(picoos_int16)((*seed >> 16) & 0xFFFF) - 16384`, i.e. the upper bits are
first cast to `int16`, 16384 is subtracted in `int` (exact), and the
result is narrowed to `int16` again by the return-type conversion. -/
def pico_generate_white_noise (seed : Nat) : Nat × Int :=
  let seed1 := (seed * 1664525 + 1013904223) % U32
  let upper : Nat := (seed1 >>> 16) &&& 65535
  (seed1, int16OfInt (int16OfInt (upper : Int) - 16384))

/-- The seed/sample stream obtained by repeated calls to
`pico_generate_white_noise`: `whiteNoiseSeq seed n` is the state after the
`(n+1)`-st call starting from `seed`. -/
def whiteNoiseSeq (seed : Nat) : Nat → Nat × Int
  | 0 => pico_generate_white_noise seed
  | n + 1 => pico_generate_white_noise (whiteNoiseSeq seed n).1

/-! ## Voice & prosody parameter model (`picoqualityenhance.c`)

`picoos_single` is embedded as `ℚ`; every float constant below is exactly
representable in IEEE single precision and only comparison/copy operations
are performed on the embedded values, so the embedding is exact. -/

/-- `picoos_single` embedded exactly (see module comment). -/
abbrev picoos_single := ℚ

/-- `0.5f` as an exact rational. -/
def q05 : ℚ := ⟨1, 2, by decide, by decide⟩

/-- `PICO_PITCH_SCALE_MIN = 0.5f`. -/
def PICO_PITCH_SCALE_MIN : ℚ := q05

/-- `PICO_PITCH_SCALE_MAX = 2.0f`. -/
def PICO_PITCH_SCALE_MAX : ℚ := 2

/-- `PICO_SPEED_SCALE_MIN = 0.5f`. -/
def PICO_SPEED_SCALE_MIN : ℚ := q05

/-- `PICO_SPEED_SCALE_MAX = 3.0f`. -/
def PICO_SPEED_SCALE_MAX : ℚ := 3

/-- `PICO_FORMANT_SHIFT_MIN = -500.0f`. -/
def PICO_FORMANT_SHIFT_MIN : ℚ := -500

/-- `PICO_FORMANT_SHIFT_MAX = 500.0f`. -/
def PICO_FORMANT_SHIFT_MAX : ℚ := 500

/-- `PICO_QUALITY_MODE_SPEED`. -/
def PICO_QUALITY_MODE_SPEED : Int := 0

/-- `PICO_QUALITY_MODE_BALANCED`. -/
def PICO_QUALITY_MODE_BALANCED : Int := 1

/-- `PICO_QUALITY_MODE_QUALITY`. -/
def PICO_QUALITY_MODE_QUALITY : Int := 2

/-- `PICO_DEFAULT_PITCH_SCALE = 1.0f`. -/
def PICO_DEFAULT_PITCH_SCALE : ℚ := 1

/-- `PICO_DEFAULT_SPEED_SCALE = 1.0f`. -/
def PICO_DEFAULT_SPEED_SCALE : ℚ := 1

/-- `PICO_DEFAULT_FORMANT_SHIFT = 0.0f`. -/
def PICO_DEFAULT_FORMANT_SHIFT : ℚ := 0

/-- `PICO_DEFAULT_EMPHASIS_SCALE = 1.0f`. -/
def PICO_DEFAULT_EMPHASIS_SCALE : ℚ := 1

/-- `PICO_DEFAULT_PAUSE_SCALE = 1.0f`. -/
def PICO_DEFAULT_PAUSE_SCALE : ℚ := 1

/-- `PICO_DEFAULT_QUESTION_BOOST = 50`. -/
def PICO_DEFAULT_QUESTION_BOOST : Int := 50

/-- `PICO_DEFAULT_QUALITY_MODE = PICO_QUALITY_MODE_BALANCED`. -/
def PICO_DEFAULT_QUALITY_MODE : Int := PICO_QUALITY_MODE_BALANCED

/-- `PICO_MALE_PITCH_SCALE = 0.80f`. -/
def PICO_MALE_PITCH_SCALE : ℚ := ⟨4, 5, by decide, by decide⟩

/-- `PICO_MALE_FORMANT_SHIFT = -120.0f`. -/
def PICO_MALE_FORMANT_SHIFT : ℚ := -120

/-- `PICO_FEMALE_PITCH_SCALE = 1.25f`. -/
def PICO_FEMALE_PITCH_SCALE : ℚ := ⟨5, 4, by decide, by decide⟩

/-- `PICO_FEMALE_FORMANT_SHIFT = 150.0f`. -/
def PICO_FEMALE_FORMANT_SHIFT : ℚ := 150

/-- `PICO_CHILD_PITCH_SCALE = 1.50f`. -/
def PICO_CHILD_PITCH_SCALE : ℚ := ⟨3, 2, by decide, by decide⟩

/-- `PICO_CHILD_SPEED_SCALE = 1.10f`. -/
def PICO_CHILD_SPEED_SCALE : ℚ := ⟨11, 10, by decide, by decide⟩

/-- `PICO_ROBOT_PITCH_SCALE = 0.90f`. -/
def PICO_ROBOT_PITCH_SCALE : ℚ := ⟨9, 10, by decide, by decide⟩

/-- `PICO_ROBOT_EMPHASIS_SCALE = 0.50f`. -/
def PICO_ROBOT_EMPHASIS_SCALE : ℚ := q05

/-- `PICO_SLOW_SPEED_SCALE = 0.75f`. -/
def PICO_SLOW_SPEED_SCALE : ℚ := ⟨3, 4, by decide, by decide⟩

/-- `PICO_SLOW_PAUSE_SCALE = 1.30f`. -/
def PICO_SLOW_PAUSE_SCALE : ℚ := ⟨13, 10, by decide, by decide⟩

/-- `PICO_FAST_SPEED_SCALE = 1.40f`. -/
def PICO_FAST_SPEED_SCALE : ℚ := ⟨7, 5, by decide, by decide⟩

/-- `PICO_FAST_PAUSE_SCALE = 0.80f`. -/
def PICO_FAST_PAUSE_SCALE : ℚ := ⟨4, 5, by decide, by decide⟩

/-- `pico_voice_params_t` (`quality_mode` is `picoos_int8`). -/
structure pico_voice_params_t where
  pitch_scale : picoos_single
  speed_scale : picoos_single
  formant_shift : picoos_single
  quality_mode : Int
deriving DecidableEq

/-- `pico_prosody_params_t` (`question_boost` is `picoos_int8`). -/
structure pico_prosody_params_t where
  emphasis_scale : picoos_single
  pause_scale : picoos_single
  question_boost : Int
deriving DecidableEq

/-- The part of `pico_quality_context_t` read or written by the modelled
operations (`pico_set_voice_params`, `pico_set_prosody_params`,
`pico_set_quality_mode`, `pico_apply_voice_profile`).  The noise filter,
random seed, statistics and `initialized` flag are neither read nor
written by any of them and are omitted. -/
structure pico_quality_context_t where
  voice_params : pico_voice_params_t
  prosody_params : pico_prosody_params_t
deriving DecidableEq

/-- The status codes (from `picodefs.h`, not under `src/`) returned by the
modelled functions; only their distinctness from `PICO_OK` matters. -/
inductive pico_status where
  | PICO_OK
  | PICO_ERR_NULLPTR_ACCESS
  | PICO_ERR_OTHER
deriving DecidableEq

/-- `pico_validate_voice_params` (the NULL check is not modelled: the
struct is passed by value). -/
def pico_validate_voice_params (params : pico_voice_params_t) : pico_status :=
  if params.pitch_scale < PICO_PITCH_SCALE_MIN ∨
     params.pitch_scale > PICO_PITCH_SCALE_MAX then pico_status.PICO_ERR_OTHER
  else if params.speed_scale < PICO_SPEED_SCALE_MIN ∨
          params.speed_scale > PICO_SPEED_SCALE_MAX then pico_status.PICO_ERR_OTHER
  else if params.formant_shift < PICO_FORMANT_SHIFT_MIN ∨
          params.formant_shift > PICO_FORMANT_SHIFT_MAX then pico_status.PICO_ERR_OTHER
  else if params.quality_mode < PICO_QUALITY_MODE_SPEED ∨
          params.quality_mode > PICO_QUALITY_MODE_QUALITY then pico_status.PICO_ERR_OTHER
  else pico_status.PICO_OK

/-- `pico_set_voice_params`: validate, and only on `PICO_OK` copy the whole
struct into the global context. -/
def pico_set_voice_params (params : pico_voice_params_t)
    (ctx : pico_quality_context_t) : pico_status × pico_quality_context_t :=
  let result := pico_validate_voice_params params
  if result ≠ pico_status.PICO_OK then (result, ctx)
  else (pico_status.PICO_OK, { ctx with voice_params := params })

/-- `pico_set_quality_mode`. -/
def pico_set_quality_mode (mode : Int) (ctx : pico_quality_context_t) :
    pico_status × pico_quality_context_t :=
  if mode < PICO_QUALITY_MODE_SPEED ∨ mode > PICO_QUALITY_MODE_QUALITY then
    (pico_status.PICO_ERR_OTHER, ctx)
  else
    (pico_status.PICO_OK,
     { ctx with voice_params := { ctx.voice_params with quality_mode := mode } })

/-- `pico_clamp_float`. -/
def pico_clamp_float (value minv maxv : picoos_single) : picoos_single :=
  if value < minv then minv
  else if value > maxv then maxv
  else value

/-- `pico_set_prosody_params`: clamps the caller's struct in place
(the function mutates `*params`), then copies it into the global context.
Returns (status, new context, mutated caller struct). -/
def pico_set_prosody_params (params : pico_prosody_params_t)
    (ctx : pico_quality_context_t) :
    pico_status × pico_quality_context_t × pico_prosody_params_t :=
  let p1 := { params with emphasis_scale := pico_clamp_float params.emphasis_scale q05 2 }
  let p2 := { p1 with pause_scale := pico_clamp_float p1.pause_scale q05 2 }
  let p3 := { p2 with question_boost := if p2.question_boost < 0 then 0 else p2.question_boost }
  let p4 := { p3 with question_boost := if p3.question_boost > 100 then 100 else p3.question_boost }
  (pico_status.PICO_OK, { ctx with prosody_params := p4 }, p4)

/-- `pico_voice_profile_t` enumeration values (underlying C `int`).
Values outside 0..6 are representable, as in C. -/
def PICO_VOICE_PROFILE_DEFAULT : Int := 0

/-- `PICO_VOICE_PROFILE_MALE`. -/
def PICO_VOICE_PROFILE_MALE : Int := 1

/-- `PICO_VOICE_PROFILE_FEMALE`. -/
def PICO_VOICE_PROFILE_FEMALE : Int := 2

/-- `PICO_VOICE_PROFILE_CHILD`. -/
def PICO_VOICE_PROFILE_CHILD : Int := 3

/-- `PICO_VOICE_PROFILE_ROBOT`. -/
def PICO_VOICE_PROFILE_ROBOT : Int := 4

/-- `PICO_VOICE_PROFILE_SLOW`. -/
def PICO_VOICE_PROFILE_SLOW : Int := 5

/-- `PICO_VOICE_PROFILE_FAST`. -/
def PICO_VOICE_PROFILE_FAST : Int := 6

/-- `pico_apply_voice_profile`: copies the current parameter sets, resets
pitch/speed/formant and emphasis/pause to defaults (note: *not*
`quality_mode` or `question_boost`), overlays the profile-specific fields
(the `switch` with a no-op `default:` branch), then applies both sets
through the setters, ignoring their results, and returns `PICO_OK`. -/
def pico_apply_voice_profile (profile : Int) (ctx : pico_quality_context_t) :
    pico_status × pico_quality_context_t :=
  let params0 := ctx.voice_params
  let prosody0 := ctx.prosody_params
  let params1 := { params0 with
      pitch_scale := PICO_DEFAULT_PITCH_SCALE,
      speed_scale := PICO_DEFAULT_SPEED_SCALE,
      formant_shift := PICO_DEFAULT_FORMANT_SHIFT }
  let prosody1 := { prosody0 with
      emphasis_scale := PICO_DEFAULT_EMPHASIS_SCALE,
      pause_scale := PICO_DEFAULT_PAUSE_SCALE }
  let pp : pico_voice_params_t × pico_prosody_params_t :=
    if profile = PICO_VOICE_PROFILE_MALE then
      ({ params1 with pitch_scale := PICO_MALE_PITCH_SCALE,
                      formant_shift := PICO_MALE_FORMANT_SHIFT }, prosody1)
    else if profile = PICO_VOICE_PROFILE_FEMALE then
      ({ params1 with pitch_scale := PICO_FEMALE_PITCH_SCALE,
                      formant_shift := PICO_FEMALE_FORMANT_SHIFT }, prosody1)
    else if profile = PICO_VOICE_PROFILE_CHILD then
      ({ params1 with pitch_scale := PICO_CHILD_PITCH_SCALE,
                      speed_scale := PICO_CHILD_SPEED_SCALE }, prosody1)
    else if profile = PICO_VOICE_PROFILE_ROBOT then
      ({ params1 with pitch_scale := PICO_ROBOT_PITCH_SCALE },
       { prosody1 with emphasis_scale := PICO_ROBOT_EMPHASIS_SCALE })
    else if profile = PICO_VOICE_PROFILE_SLOW then
      ({ params1 with speed_scale := PICO_SLOW_SPEED_SCALE },
       { prosody1 with pause_scale := PICO_SLOW_PAUSE_SCALE })
    else if profile = PICO_VOICE_PROFILE_FAST then
      ({ params1 with speed_scale := PICO_FAST_SPEED_SCALE },
       { prosody1 with pause_scale := PICO_FAST_PAUSE_SCALE })
    else (params1, prosody1)
  let ctx1 := (pico_set_voice_params pp.1 ctx).2
  let ctx2 := (pico_set_prosody_params pp.2 ctx1).2.1
  (pico_status.PICO_OK, ctx2)

/-! ## Cache state predicates -/

/-- At most one valid entry per `(context_hash, tree_id)` pair among the
4 probed slots for that hash (the spec's cache invariant). -/
def cacheNoDup (c : picodt_cache_t) : Prop :=
  ∀ ch t i j, i ∈ probeWindow ch → j ∈ probeWindow ch →
    entry_matches (c.entries i) ch t = true →
    entry_matches (c.entries j) ch t = true → i = j

/-- Cache states reachable from initialization by arbitrary sequences of
`lookup`, `insert` and `clear` (the quantification of the original claim). -/
inductive CacheReachAny : picodt_cache_t → Prop where
  | init : CacheReachAny picodt_cache_init_state
  | clear (c : picodt_cache_t) : CacheReachAny c →
      CacheReachAny (picodt_cache_clear c)
  | lookup (c : picodt_cache_t) (ch t : Nat) : CacheReachAny c →
      CacheReachAny (picodt_cache_lookup c ch t).2
  | insert (c : picodt_cache_t) (ch t p : Nat) : CacheReachAny c →
      CacheReachAny (picodt_cache_insert c ch t p)

/-- Cache states reachable when every insert is performed only for a key
absent from its probe window (the situation after a lookup miss — the
intended usage discipline). -/
inductive CacheReach : picodt_cache_t → Prop where
  | init : CacheReach picodt_cache_init_state
  | clear (c : picodt_cache_t) : CacheReach c → CacheReach (picodt_cache_clear c)
  | lookup (c : picodt_cache_t) (ch t : Nat) : CacheReach c →
      CacheReach (picodt_cache_lookup c ch t).2
  | insert (c : picodt_cache_t) (ch t p : Nat) : CacheReach c →
      (∀ i ∈ probeWindow ch, entry_matches (c.entries i) ch t = false) →
      CacheReach (picodt_cache_insert c ch t p)

/-! ## Concrete states used by witnesses and counterexamples -/

/-- Two inserts of the same key `(0, 0)` with different pdf values starting
from the freshly initialized cache. -/
def cacheWithDup : picodt_cache_t :=
  picodt_cache_insert (picodt_cache_insert picodt_cache_init_state 0 0 1) 0 0 2

/-- A cache whose statistics overflow the 32-bit product `hits * 100`. -/
def cacheHitsOverflow : picodt_cache_t :=
  { picodt_cache_init_state with
      stats := { hits := 4294967293, misses := 8, collisions := 0, evictions := 0 } }

/-- A cache with 3 recorded hits and 1 recorded miss. -/
def cacheStats31 : picodt_cache_t :=
  { picodt_cache_init_state with
      stats := { hits := 3, misses := 1, collisions := 0, evictions := 0 } }

/-- The default quality context (the state `pico_quality_init` produces). -/
def ctxDefault : pico_quality_context_t :=
  { voice_params :=
      { pitch_scale := PICO_DEFAULT_PITCH_SCALE,
        speed_scale := PICO_DEFAULT_SPEED_SCALE,
        formant_shift := PICO_DEFAULT_FORMANT_SHIFT,
        quality_mode := PICO_DEFAULT_QUALITY_MODE },
    prosody_params :=
      { emphasis_scale := PICO_DEFAULT_EMPHASIS_SCALE,
        pause_scale := PICO_DEFAULT_PAUSE_SCALE,
        question_boost := PICO_DEFAULT_QUESTION_BOOST } }

/-- A voice parameter set with `pitch_scale = 3.0`, outside `[0.5, 2.0]`. -/
def voiceParamsPitch3 : pico_voice_params_t :=
  { pitch_scale := 3, speed_scale := 1, formant_shift := 0,
    quality_mode := PICO_QUALITY_MODE_BALANCED }

/-- A context with custom values everywhere and quality mode
`PICO_QUALITY_MODE_QUALITY` (2), reachable through the public setters. -/
def ctxQ2custom : pico_quality_context_t :=
  { voice_params :=
      { pitch_scale := ⟨9, 5, by decide, by decide⟩,
        speed_scale := 2,
        formant_shift := 300,
        quality_mode := PICO_QUALITY_MODE_QUALITY },
    prosody_params :=
      { emphasis_scale := ⟨3, 2, by decide, by decide⟩,
        pause_scale := ⟨3, 4, by decide, by decide⟩,
        question_boost := 70 } }

/-! ## General lemmas -/

theorem nat_and_two_pow_sub_one (n k : Nat) : n &&& (2 ^ k - 1) = n % 2 ^ k := by
  apply Nat.eq_of_testBit_eq
  intro i
  rw [Nat.testBit_and, Nat.testBit_mod_two_pow, Nat.testBit_two_pow_sub_one]
  cases Nat.decLt i k with
  | isTrue h => simp [h]
  | isFalse h => simp [h]

theorem mask_eq_mod (n : Nat) :
    n &&& (PICO_DT_CACHE_SIZE - 1) = n % PICO_DT_CACHE_SIZE := by
  have h : PICO_DT_CACHE_SIZE = 2 ^ 8 := by decide
  rw [h]
  exact nat_and_two_pow_sub_one n 8

theorem get_cache_index_eq (h : Nat) :
    get_cache_index h = h % PICO_DT_CACHE_SIZE := mask_eq_mod h

theorem get_cache_index_lt (h : Nat) : get_cache_index h < PICO_DT_CACHE_SIZE := by
  rw [get_cache_index_eq]
  exact Nat.mod_lt _ (by decide)

theorem int16OfInt_range (z : Int) :
    PICO_Q15_MIN ≤ int16OfInt z ∧ int16OfInt z ≤ PICO_Q15_MAX := by
  unfold int16OfInt PICO_Q15_MIN PICO_Q15_MAX
  omega

theorem pico_clamp_float_mem (value minv maxv : ℚ) (h : minv ≤ maxv) :
    minv ≤ pico_clamp_float value minv maxv ∧ pico_clamp_float value minv maxv ≤ maxv := by
  unfold pico_clamp_float
  split
  · exact ⟨le_refl _, h⟩
  · split
    · exact ⟨h, le_refl _⟩
    · next h1 h2 => exact ⟨not_lt.mp h1, not_lt.mp h2⟩

theorem set_prosody_eq (params : pico_prosody_params_t) (ctx : pico_quality_context_t) :
    pico_set_prosody_params params ctx =
      (pico_status.PICO_OK,
       { ctx with prosody_params :=
           { emphasis_scale := pico_clamp_float params.emphasis_scale q05 2,
             pause_scale := pico_clamp_float params.pause_scale q05 2,
             question_boost := min 100 (max 0 params.question_boost) } },
       { emphasis_scale := pico_clamp_float params.emphasis_scale q05 2,
         pause_scale := pico_clamp_float params.pause_scale q05 2,
         question_boost := min 100 (max 0 params.question_boost) }) := by
  have hboost : (if (if params.question_boost < 0 then 0 else params.question_boost) > 100
        then 100 else (if params.question_boost < 0 then 0 else params.question_boost)) =
      min 100 (max 0 params.question_boost) := by
    rcases lt_or_le params.question_boost 0 with h | h
    · rw [if_pos h, if_neg (by omega : ¬(0 : Int) > 100), max_eq_left (le_of_lt h),
          min_eq_right (by omega : (0 : Int) ≤ 100)]
    · rw [if_neg (not_lt.mpr h)]
      rcases lt_or_le 100 params.question_boost with h2 | h2
      · rw [if_pos h2, max_eq_right h, min_eq_left (le_of_lt h2)]
      · rw [if_neg (not_lt.mpr h2), max_eq_right h, min_eq_right h2]
  simp only [pico_set_prosody_params]
  rw [hboost]

/-! ## C7: Q15 saturating addition -/

/-- C7: for Q15 operands `a, b`, `pico_q15_add_sat a b` always lies in
`[-32768, 32767]`, and equals plain integer addition whenever `a + b`
already lies in that range. -/
theorem q15_add_sat_spec (a b : Int)
    (ha1 : PICO_Q15_MIN ≤ a) (ha2 : a ≤ PICO_Q15_MAX)
    (hb1 : PICO_Q15_MIN ≤ b) (hb2 : b ≤ PICO_Q15_MAX) :
    PICO_Q15_MIN ≤ pico_q15_add_sat a b ∧
    pico_q15_add_sat a b ≤ PICO_Q15_MAX ∧
    (PICO_Q15_MIN ≤ a + b → a + b ≤ PICO_Q15_MAX → pico_q15_add_sat a b = a + b) := by
  simp only [pico_q15_add_sat, PICO_Q15_MIN, PICO_Q15_MAX] at *
  split
  · omega
  · split <;> omega

/-- Witness for `q15_add_sat_spec` at the claim's example `(100, 200)`. -/
theorem q15_add_sat_spec_witness : pico_q15_add_sat 100 200 = 300 :=
  (q15_add_sat_spec 100 200 (by decide) (by decide) (by decide)
    (by decide)).2.2 (by decide) (by decide)

/-! ## C4: white-noise generator -/

/-- C4: one call to `pico_generate_white_noise` updates the seed to
`seed * 1664525 + 1013904223 (mod 2^32)` and returns the 16-bit sample
given by the upper 16 bits of the updated seed minus 16384 (narrowed to
`picoos_int16`); the stream from the fixed seed `12345` is the fixed
golden sequence below. -/
theorem white_noise_lcg_spec :
    (∀ seed : Nat, seed < U32 →
       (pico_generate_white_noise seed).1 = (seed * 1664525 + 1013904223) % U32 ∧
       (pico_generate_white_noise seed).2 =
         int16OfInt ((((pico_generate_white_noise seed).1 / 65536 : Nat) : Int) - 16384) ∧
       PICO_Q15_MIN ≤ (pico_generate_white_noise seed).2 ∧
       (pico_generate_white_noise seed).2 ≤ PICO_Q15_MAX) ∧
    whiteNoiseSeq 12345 0 = (87628868, -15047) ∧
    whiteNoiseSeq 12345 1 = (71072467, -15300) ∧
    whiteNoiseSeq 12345 2 = (2332836374, 19212) := by
  refine ⟨?_, by decide, by decide, by decide⟩
  intro seed hseed
  unfold pico_generate_white_noise
  set s1 := (seed * 1664525 + 1013904223) % U32 with hs1
  have hlt : s1 < U32 := Nat.mod_lt _ (by decide)
  have hdiv : s1 >>> 16 = s1 / 65536 := by
    rw [Nat.shiftRight_eq_div_pow]
  have hsmall : s1 / 65536 < 65536 := by
    apply Nat.div_lt_of_lt_mul
    calc s1 < U32 := hlt
    _ = 65536 * 65536 := by decide
  have hmask : (s1 >>> 16) &&& 65535 = s1 / 65536 := by
    rw [hdiv]
    have h := nat_and_two_pow_sub_one (s1 / 65536) 16
    have h2 : (2 : Nat) ^ 16 = 65536 := by decide
    rw [h2] at h
    rw [show (65535 : Nat) = 65536 - 1 from rfl, h, Nat.mod_eq_of_lt hsmall]
  refine ⟨rfl, ?_, ?_, ?_⟩
  · simp only [hmask]
    unfold int16OfInt
    have hv : ((s1 / 65536 : Nat) : Int) < 65536 := by exact_mod_cast hsmall
    have hv0 : (0 : Int) ≤ ((s1 / 65536 : Nat) : Int) := Int.ofNat_nonneg _
    omega
  · exact (int16OfInt_range _).1
  · exact (int16OfInt_range _).2

/-- Witness for `white_noise_lcg_spec` at the claim's seed `12345`. -/
theorem white_noise_lcg_spec_witness :
    (pico_generate_white_noise 12345).1 = (12345 * 1664525 + 1013904223) % U32 :=
  (white_noise_lcg_spec.1 12345 (by decide)).1

/-! ## C6: hit-rate -/

/-- C6 counterexample: a cache state on which `picodt_cache_hit_rate`
returns 247, above 100 and different from
`hits * 100 / (hits + misses) = 99`: the product `hits * 100` and the sum
`hits + misses` are computed in 32-bit arithmetic and wrap. -/
theorem hit_rate_overflow_exceeds_100 :
    picodt_cache_hit_rate cacheHitsOverflow = 247 ∧
    100 < picodt_cache_hit_rate cacheHitsOverflow ∧
    cacheHitsOverflow.stats.hits * 100 /
      (cacheHitsOverflow.stats.hits + cacheHitsOverflow.stats.misses) = 99 := by
  refine ⟨by decide, by decide, by decide⟩

/-- C6 amended: on every cache state whose statistics do not overflow the
32-bit arithmetic (`hits * 100 < 2^32` and `hits + misses < 2^32`),
`picodt_cache_hit_rate` returns `hits * 100 / (hits + misses)` (0 when no
lookups were recorded), the result is at most 100, and it is 0 immediately
after `picodt_cache_clear`. -/
theorem hit_rate_formula_no_overflow (c : picodt_cache_t)
    (h1 : c.stats.hits * 100 < U32) (h2 : c.stats.hits + c.stats.misses < U32) :
    (c.stats.hits + c.stats.misses = 0 → picodt_cache_hit_rate c = 0) ∧
    (c.stats.hits + c.stats.misses ≠ 0 →
       picodt_cache_hit_rate c = c.stats.hits * 100 / (c.stats.hits + c.stats.misses)) ∧
    picodt_cache_hit_rate c ≤ 100 ∧
    picodt_cache_hit_rate (picodt_cache_clear c) = 0 := by
  have hdivle : c.stats.hits + c.stats.misses ≠ 0 →
      c.stats.hits * 100 / (c.stats.hits + c.stats.misses) ≤ 100 := by
    intro hne
    have hpos : 0 < c.stats.hits + c.stats.misses := Nat.pos_of_ne_zero hne
    have hmul : c.stats.hits * 100 ≤ (c.stats.hits + c.stats.misses) * 100 := by
      apply Nat.mul_le_mul_right
      omega
    calc c.stats.hits * 100 / (c.stats.hits + c.stats.misses)
        ≤ (c.stats.hits + c.stats.misses) * 100 / (c.stats.hits + c.stats.misses) :=
          Nat.div_le_div_right hmul
      _ = 100 := Nat.mul_div_cancel_left _ hpos
  have hval : picodt_cache_hit_rate c =
      if c.stats.hits + c.stats.misses = 0 then 0
      else c.stats.hits * 100 / (c.stats.hits + c.stats.misses) := by
    simp only [picodt_cache_hit_rate]
    rw [Nat.mod_eq_of_lt h2, Nat.mod_eq_of_lt h1]
    split
    · rfl
    · next hne =>
        have hle := hdivle hne
        rw [Nat.mod_eq_of_lt (by omega)]
  refine ⟨?_, ?_, ?_, ?_⟩
  · intro hz
    rw [hval, if_pos hz]
  · intro hnz
    rw [hval, if_neg hnz]
  · rw [hval]
    split
    · omega
    · next hne => exact hdivle hne
  · simp [picodt_cache_hit_rate, picodt_cache_clear]

/-- Witness for `hit_rate_formula_no_overflow` on a concrete cache with
3 hits and 1 miss. -/
theorem hit_rate_formula_no_overflow_witness :
    picodt_cache_hit_rate cacheStats31 = 3 * 100 / (3 + 1) ∧
    picodt_cache_hit_rate cacheStats31 ≤ 100 :=
  ⟨(hit_rate_formula_no_overflow cacheStats31 (by decide) (by decide)).2.1 (by decide),
   (hit_rate_formula_no_overflow cacheStats31 (by decide) (by decide)).2.2.1⟩

/-! ## C8 and C10: prosody parameters -/

/-- C8: `pico_set_prosody_params` never rejects: it clamps
`emphasis_scale` and `pause_scale` into `[0.5, 2.0]` and `question_boost`
into `[0, 100]`, makes the clamped values the active prosody parameters,
and returns `PICO_OK`. -/
theorem set_prosody_params_clamps (params : pico_prosody_params_t)
    (ctx : pico_quality_context_t) :
    (pico_set_prosody_params params ctx).1 = pico_status.PICO_OK ∧
    (pico_set_prosody_params params ctx).2.1.prosody_params =
      { emphasis_scale := pico_clamp_float params.emphasis_scale q05 2,
        pause_scale := pico_clamp_float params.pause_scale q05 2,
        question_boost := min 100 (max 0 params.question_boost) } ∧
    q05 ≤ (pico_set_prosody_params params ctx).2.1.prosody_params.emphasis_scale ∧
    (pico_set_prosody_params params ctx).2.1.prosody_params.emphasis_scale ≤ 2 ∧
    q05 ≤ (pico_set_prosody_params params ctx).2.1.prosody_params.pause_scale ∧
    (pico_set_prosody_params params ctx).2.1.prosody_params.pause_scale ≤ 2 ∧
    0 ≤ (pico_set_prosody_params params ctx).2.1.prosody_params.question_boost ∧
    (pico_set_prosody_params params ctx).2.1.prosody_params.question_boost ≤ 100 := by
  have hq : q05 ≤ (2 : ℚ) := by decide
  have hem := pico_clamp_float_mem params.emphasis_scale q05 2 hq
  have hpa := pico_clamp_float_mem params.pause_scale q05 2 hq
  have hboost : (if (if params.question_boost < 0 then 0 else params.question_boost) > 100
        then 100 else (if params.question_boost < 0 then 0 else params.question_boost)) =
      min 100 (max 0 params.question_boost) := by
    split <;> split <;> omega
  unfold pico_set_prosody_params
  refine ⟨rfl, ?_, ?_, ?_, ?_, ?_, ?_, ?_⟩ <;>
    simp only [hboost] <;>
    first
      | rfl
      | exact hem.1
      | exact hem.2
      | exact hpa.1
      | exact hpa.2
      | omega

/-- C10: `pico_set_prosody_params` mutates the caller's struct: the struct
passed in holds, on return, the clamped values (not necessarily the values
originally supplied), and these equal the newly active prosody
parameters. -/
theorem set_prosody_params_mutates_input (params : pico_prosody_params_t)
    (ctx : pico_quality_context_t) :
    (pico_set_prosody_params params ctx).2.2 =
      { emphasis_scale := pico_clamp_float params.emphasis_scale q05 2,
        pause_scale := pico_clamp_float params.pause_scale q05 2,
        question_boost := min 100 (max 0 params.question_boost) } ∧
    (pico_set_prosody_params params ctx).2.2 =
      (pico_set_prosody_params params ctx).2.1.prosody_params ∧
    q05 ≤ (pico_set_prosody_params params ctx).2.2.emphasis_scale ∧
    (pico_set_prosody_params params ctx).2.2.emphasis_scale ≤ 2 ∧
    q05 ≤ (pico_set_prosody_params params ctx).2.2.pause_scale ∧
    (pico_set_prosody_params params ctx).2.2.pause_scale ≤ 2 ∧
    0 ≤ (pico_set_prosody_params params ctx).2.2.question_boost ∧
    (pico_set_prosody_params params ctx).2.2.question_boost ≤ 100 := by
  have hq : q05 ≤ (2 : ℚ) := by decide
  have hem := pico_clamp_float_mem params.emphasis_scale q05 2 hq
  have hpa := pico_clamp_float_mem params.pause_scale q05 2 hq
  have hboost : (if (if params.question_boost < 0 then 0 else params.question_boost) > 100
        then 100 else (if params.question_boost < 0 then 0 else params.question_boost)) =
      min 100 (max 0 params.question_boost) := by
    split <;> split <;> omega
  unfold pico_set_prosody_params
  refine ⟨?_, rfl, ?_, ?_, ?_, ?_, ?_, ?_⟩ <;>
    simp only [hboost] <;>
    first
      | rfl
      | exact hem.1
      | exact hem.2
      | exact hpa.1
      | exact hpa.2
      | omega

/-! ## C2: voice parameter validation -/

theorem validate_ok_iff (params : pico_voice_params_t) :
    pico_validate_voice_params params = pico_status.PICO_OK ↔
    (PICO_PITCH_SCALE_MIN ≤ params.pitch_scale ∧
     params.pitch_scale ≤ PICO_PITCH_SCALE_MAX ∧
     PICO_SPEED_SCALE_MIN ≤ params.speed_scale ∧
     params.speed_scale ≤ PICO_SPEED_SCALE_MAX ∧
     PICO_FORMANT_SHIFT_MIN ≤ params.formant_shift ∧
     params.formant_shift ≤ PICO_FORMANT_SHIFT_MAX ∧
     PICO_QUALITY_MODE_SPEED ≤ params.quality_mode ∧
     params.quality_mode ≤ PICO_QUALITY_MODE_QUALITY) := by
  unfold pico_validate_voice_params
  split
  · next h =>
      simp only [reduceCtorEq, false_iff]
      rintro ⟨h1, h2, -⟩
      rcases h with h | h
      · exact absurd h (not_lt.mpr h1)
      · exact absurd h (not_lt.mpr h2)
  · next hp =>
      rw [not_or] at hp
      split
      · next h =>
          simp only [reduceCtorEq, false_iff]
          rintro ⟨-, -, h1, h2, -⟩
          rcases h with h | h
          · exact absurd h (not_lt.mpr h1)
          · exact absurd h (not_lt.mpr h2)
      · next hs =>
          rw [not_or] at hs
          split
          · next h =>
              simp only [reduceCtorEq, false_iff]
              rintro ⟨-, -, -, -, h1, h2, -⟩
              rcases h with h | h
              · exact absurd h (not_lt.mpr h1)
              · exact absurd h (not_lt.mpr h2)
          · next hf =>
              rw [not_or] at hf
              split
              · next h =>
                  simp only [reduceCtorEq, false_iff]
                  rintro ⟨-, -, -, -, -, -, h1, h2⟩
                  rcases h with h | h
                  · exact absurd h (not_lt.mpr h1)
                  · exact absurd h (not_lt.mpr h2)
              · next hq =>
                  rw [not_or] at hq
                  simp only [true_iff]
                  exact ⟨not_lt.mp hp.1, not_lt.mp hp.2, not_lt.mp hs.1, not_lt.mp hs.2,
                         not_lt.mp hf.1, not_lt.mp hf.2, not_lt.mp hq.1, not_lt.mp hq.2⟩

/-- C2: `pico_set_voice_params` rejects any parameter set with a field out
of its documented bound, leaving the active parameters entirely unchanged;
on success (every field within bounds) the new set entirely replaces the
active one. -/
theorem set_voice_params_rejects_or_replaces (params : pico_voice_params_t)
    (ctx : pico_quality_context_t) :
    (¬ (PICO_PITCH_SCALE_MIN ≤ params.pitch_scale ∧
        params.pitch_scale ≤ PICO_PITCH_SCALE_MAX ∧
        PICO_SPEED_SCALE_MIN ≤ params.speed_scale ∧
        params.speed_scale ≤ PICO_SPEED_SCALE_MAX ∧
        PICO_FORMANT_SHIFT_MIN ≤ params.formant_shift ∧
        params.formant_shift ≤ PICO_FORMANT_SHIFT_MAX ∧
        PICO_QUALITY_MODE_SPEED ≤ params.quality_mode ∧
        params.quality_mode ≤ PICO_QUALITY_MODE_QUALITY) →
      (pico_set_voice_params params ctx).1 ≠ pico_status.PICO_OK ∧
      (pico_set_voice_params params ctx).2 = ctx) ∧
    ((PICO_PITCH_SCALE_MIN ≤ params.pitch_scale ∧
      params.pitch_scale ≤ PICO_PITCH_SCALE_MAX ∧
      PICO_SPEED_SCALE_MIN ≤ params.speed_scale ∧
      params.speed_scale ≤ PICO_SPEED_SCALE_MAX ∧
      PICO_FORMANT_SHIFT_MIN ≤ params.formant_shift ∧
      params.formant_shift ≤ PICO_FORMANT_SHIFT_MAX ∧
      PICO_QUALITY_MODE_SPEED ≤ params.quality_mode ∧
      params.quality_mode ≤ PICO_QUALITY_MODE_QUALITY) →
      (pico_set_voice_params params ctx).1 = pico_status.PICO_OK ∧
      (pico_set_voice_params params ctx).2 = { ctx with voice_params := params }) := by
  constructor
  · intro hbad
    have hne : pico_validate_voice_params params ≠ pico_status.PICO_OK :=
      fun hok => hbad ((validate_ok_iff params).mp hok)
    unfold pico_set_voice_params
    rw [if_pos hne]
    exact ⟨hne, rfl⟩
  · intro hgood
    have hok : pico_validate_voice_params params = pico_status.PICO_OK :=
      (validate_ok_iff params).mpr hgood
    unfold pico_set_voice_params
    rw [hok]
    simp

/-- Witness for `set_voice_params_rejects_or_replaces`: `pitch_scale = 3.0`
is rejected and the context is unchanged. -/
theorem set_voice_params_rejects_witness :
    (pico_set_voice_params voiceParamsPitch3 ctxDefault).1 ≠ pico_status.PICO_OK ∧
    (pico_set_voice_params voiceParamsPitch3 ctxDefault).2 = ctxDefault :=
  (set_voice_params_rejects_or_replaces voiceParamsPitch3 ctxDefault).1 (by decide)

/-! ## C3: voice profiles -/

/-- C3 counterexample: applying the "female" profile does *not* reset the
voice parameter set to the documented defaults: a previously active
`quality_mode` of `PICO_QUALITY_MODE_QUALITY` (2) survives the profile
application instead of returning to `PICO_DEFAULT_QUALITY_MODE` (1). -/
theorem apply_voice_profile_keeps_quality_mode :
    (pico_apply_voice_profile PICO_VOICE_PROFILE_FEMALE ctxQ2custom).2.voice_params.quality_mode
      = PICO_QUALITY_MODE_QUALITY ∧
    (pico_apply_voice_profile PICO_VOICE_PROFILE_FEMALE ctxQ2custom).2.voice_params.quality_mode
      ≠ PICO_DEFAULT_QUALITY_MODE := by
  exact ⟨by decide, by decide⟩

set_option maxRecDepth 4000 in
/-- C3 amended: `pico_apply_voice_profile` resets pitch/speed/formant and
emphasis/pause scales to the documented defaults and overlays the
profile's overrides, while `quality_mode` and `question_boost` carry over
from the prior state (`question_boost` re-clamped); in particular, for any
prior state whose `quality_mode` is one of the three documented modes,
applying the "female" profile yields `pitch_scale = 1.25` and
`formant_shift = 150.0`, independent of prior custom values, never a mix
of two profiles. -/
theorem apply_voice_profile_female_spec (ctx : pico_quality_context_t)
    (hq : PICO_QUALITY_MODE_SPEED ≤ ctx.voice_params.quality_mode ∧
          ctx.voice_params.quality_mode ≤ PICO_QUALITY_MODE_QUALITY) :
    (pico_apply_voice_profile PICO_VOICE_PROFILE_FEMALE ctx).1 = pico_status.PICO_OK ∧
    (pico_apply_voice_profile PICO_VOICE_PROFILE_FEMALE ctx).2.voice_params =
      { pitch_scale := PICO_FEMALE_PITCH_SCALE,
        speed_scale := PICO_DEFAULT_SPEED_SCALE,
        formant_shift := PICO_FEMALE_FORMANT_SHIFT,
        quality_mode := ctx.voice_params.quality_mode } ∧
    (pico_apply_voice_profile PICO_VOICE_PROFILE_FEMALE ctx).2.prosody_params =
      { emphasis_scale := PICO_DEFAULT_EMPHASIS_SCALE,
        pause_scale := PICO_DEFAULT_PAUSE_SCALE,
        question_boost := min 100 (max 0 ctx.prosody_params.question_boost) } := by
  have hvalid : pico_validate_voice_params
      { pitch_scale := PICO_FEMALE_PITCH_SCALE,
        speed_scale := PICO_DEFAULT_SPEED_SCALE,
        formant_shift := PICO_FEMALE_FORMANT_SHIFT,
        quality_mode := ctx.voice_params.quality_mode }
      = pico_status.PICO_OK := by
    apply (validate_ok_iff _).mpr
    refine ⟨?_, ?_, ?_, ?_, ?_, ?_, hq.1, hq.2⟩
    · show PICO_PITCH_SCALE_MIN ≤ PICO_FEMALE_PITCH_SCALE
      decide
    · show PICO_FEMALE_PITCH_SCALE ≤ PICO_PITCH_SCALE_MAX
      decide
    · show PICO_SPEED_SCALE_MIN ≤ PICO_DEFAULT_SPEED_SCALE
      decide
    · show PICO_DEFAULT_SPEED_SCALE ≤ PICO_SPEED_SCALE_MAX
      decide
    · show PICO_FORMANT_SHIFT_MIN ≤ PICO_FEMALE_FORMANT_SHIFT
      decide
    · show PICO_FEMALE_FORMANT_SHIFT ≤ PICO_FORMANT_SHIFT_MAX
      decide
  have heq : pico_apply_voice_profile PICO_VOICE_PROFILE_FEMALE ctx =
      (pico_status.PICO_OK,
       (pico_set_prosody_params
          { emphasis_scale := PICO_DEFAULT_EMPHASIS_SCALE,
            pause_scale := PICO_DEFAULT_PAUSE_SCALE,
            question_boost := ctx.prosody_params.question_boost }
          (pico_set_voice_params
             { pitch_scale := PICO_FEMALE_PITCH_SCALE,
               speed_scale := PICO_DEFAULT_SPEED_SCALE,
               formant_shift := PICO_FEMALE_FORMANT_SHIFT,
               quality_mode := ctx.voice_params.quality_mode }
             ctx).2).2.1) := rfl
  have hsv : pico_set_voice_params
      { pitch_scale := PICO_FEMALE_PITCH_SCALE,
        speed_scale := PICO_DEFAULT_SPEED_SCALE,
        formant_shift := PICO_FEMALE_FORMANT_SHIFT,
        quality_mode := ctx.voice_params.quality_mode } ctx
      = (pico_status.PICO_OK,
         { ctx with voice_params :=
             { pitch_scale := PICO_FEMALE_PITCH_SCALE,
               speed_scale := PICO_DEFAULT_SPEED_SCALE,
               formant_shift := PICO_FEMALE_FORMANT_SHIFT,
               quality_mode := ctx.voice_params.quality_mode } }) := by
    unfold pico_set_voice_params
    rw [hvalid]
    simp
  have hce : pico_clamp_float PICO_DEFAULT_EMPHASIS_SCALE q05 2 = PICO_DEFAULT_EMPHASIS_SCALE := by
    decide
  have hcp : pico_clamp_float PICO_DEFAULT_PAUSE_SCALE q05 2 = PICO_DEFAULT_PAUSE_SCALE := by
    decide
  rw [heq, hsv, set_prosody_eq]
  refine ⟨rfl, rfl, ?_⟩
  rw [show ({ emphasis_scale := PICO_DEFAULT_EMPHASIS_SCALE,
              pause_scale := PICO_DEFAULT_PAUSE_SCALE,
              question_boost := ctx.prosody_params.question_boost } :
        pico_prosody_params_t).emphasis_scale = PICO_DEFAULT_EMPHASIS_SCALE from rfl]
  rw [hce, hcp]

/-- Witness for `apply_voice_profile_female_spec` on the custom context
`ctxQ2custom`. -/
theorem apply_voice_profile_female_spec_witness :
    (pico_apply_voice_profile PICO_VOICE_PROFILE_FEMALE ctxQ2custom).2.voice_params =
      { pitch_scale := PICO_FEMALE_PITCH_SCALE,
        speed_scale := PICO_DEFAULT_SPEED_SCALE,
        formant_shift := PICO_FEMALE_FORMANT_SHIFT,
        quality_mode := ctxQ2custom.voice_params.quality_mode } ∧
    (pico_apply_voice_profile PICO_VOICE_PROFILE_FEMALE ctxQ2custom).2.prosody_params =
      { emphasis_scale := PICO_DEFAULT_EMPHASIS_SCALE,
        pause_scale := PICO_DEFAULT_PAUSE_SCALE,
        question_boost := min 100 (max 0 ctxQ2custom.prosody_params.question_boost) } :=
  ⟨(apply_voice_profile_female_spec ctxQ2custom (by decide)).2.1,
   (apply_voice_profile_female_spec ctxQ2custom (by decide)).2.2⟩

/-! ## C9: unsupported quality modes and voice profiles -/

/-- C9 counterexample: `pico_apply_voice_profile` with the out-of-range
profile value 99 is *not* rejected: it returns `PICO_OK` and silently
behaves like the default profile. -/
theorem apply_voice_profile_unknown_returns_ok :
    (pico_apply_voice_profile 99 ctxDefault).1 = pico_status.PICO_OK ∧
    (pico_apply_voice_profile 99 ctxDefault).2 = ctxDefault := by
  exact ⟨by decide, by decide⟩

/-- C9 amended: `pico_set_quality_mode` with a mode outside
`{Speed, Balanced, Quality}` returns an error and leaves the context
unchanged; `pico_apply_voice_profile` with a value outside the documented
enumeration is *not* rejected: it behaves exactly like the default profile
and returns `PICO_OK`. -/
theorem unsupported_mode_and_profile_spec (mode profile : Int)
    (ctx1 ctx2 : pico_quality_context_t)
    (hm : mode < PICO_QUALITY_MODE_SPEED ∨ mode > PICO_QUALITY_MODE_QUALITY)
    (hp : profile < PICO_VOICE_PROFILE_DEFAULT ∨ profile > PICO_VOICE_PROFILE_FAST) :
    (pico_set_quality_mode mode ctx1).1 = pico_status.PICO_ERR_OTHER ∧
    (pico_set_quality_mode mode ctx1).2 = ctx1 ∧
    pico_apply_voice_profile profile ctx2 =
      pico_apply_voice_profile PICO_VOICE_PROFILE_DEFAULT ctx2 ∧
    (pico_apply_voice_profile profile ctx2).1 = pico_status.PICO_OK := by
  have h1 : pico_set_quality_mode mode ctx1 = (pico_status.PICO_ERR_OTHER, ctx1) := by
    unfold pico_set_quality_mode
    rw [if_pos hm]
  have hp2 : profile < 0 ∨ 6 < profile := by
    simpa [PICO_VOICE_PROFILE_DEFAULT, PICO_VOICE_PROFILE_FAST] using hp
  have hred : ∀ pr : Int, pr ≠ PICO_VOICE_PROFILE_MALE → pr ≠ PICO_VOICE_PROFILE_FEMALE →
      pr ≠ PICO_VOICE_PROFILE_CHILD → pr ≠ PICO_VOICE_PROFILE_ROBOT →
      pr ≠ PICO_VOICE_PROFILE_SLOW → pr ≠ PICO_VOICE_PROFILE_FAST →
      pico_apply_voice_profile pr ctx2 =
        (pico_status.PICO_OK,
         (pico_set_prosody_params
            { emphasis_scale := PICO_DEFAULT_EMPHASIS_SCALE,
              pause_scale := PICO_DEFAULT_PAUSE_SCALE,
              question_boost := ctx2.prosody_params.question_boost }
            (pico_set_voice_params
               { pitch_scale := PICO_DEFAULT_PITCH_SCALE,
                 speed_scale := PICO_DEFAULT_SPEED_SCALE,
                 formant_shift := PICO_DEFAULT_FORMANT_SHIFT,
                 quality_mode := ctx2.voice_params.quality_mode }
               ctx2).2).2.1) := by
    intro pr n1 n2 n3 n4 n5 n6
    simp only [pico_apply_voice_profile]
    rw [if_neg n1, if_neg n2, if_neg n3, if_neg n4, if_neg n5, if_neg n6]
  have hprofile := hred profile
    (by simp only [PICO_VOICE_PROFILE_MALE]; omega)
    (by simp only [PICO_VOICE_PROFILE_FEMALE]; omega)
    (by simp only [PICO_VOICE_PROFILE_CHILD]; omega)
    (by simp only [PICO_VOICE_PROFILE_ROBOT]; omega)
    (by simp only [PICO_VOICE_PROFILE_SLOW]; omega)
    (by simp only [PICO_VOICE_PROFILE_FAST]; omega)
  have hdefault := hred PICO_VOICE_PROFILE_DEFAULT
    (by decide) (by decide) (by decide) (by decide) (by decide) (by decide)
  refine ⟨by rw [h1], by rw [h1], ?_, ?_⟩
  · rw [hprofile, hdefault]
  · rw [hprofile]

/-- Witness for `unsupported_mode_and_profile_spec` at mode 5 and
profile 99. -/
theorem unsupported_mode_and_profile_spec_witness :
    (pico_set_quality_mode 5 ctxDefault).1 = pico_status.PICO_ERR_OTHER ∧
    (pico_set_quality_mode 5 ctxDefault).2 = ctxDefault ∧
    pico_apply_voice_profile 99 ctxDefault =
      pico_apply_voice_profile PICO_VOICE_PROFILE_DEFAULT ctxDefault ∧
    (pico_apply_voice_profile 99 ctxDefault).1 = pico_status.PICO_OK :=
  unsupported_mode_and_profile_spec 5 99 ctxDefault ctxDefault (by decide) (by decide)

/-! ## Cache structure lemmas -/

theorem mask256 (n : Nat) : n &&& (PICO_DT_CACHE_SIZE - 1) = n % 256 := mask_eq_mod n

theorem findLruAux_mem (c : picodt_cache_t) (start : Nat) (W : List Nat) :
    ∀ (os : List Nat) (lru minA : Nat), lru ∈ W →
      (∀ o ∈ os, (start + o) &&& (PICO_DT_CACHE_SIZE - 1) ∈ W) →
      findLruAux c start os lru minA ∈ W := by
  intro os
  induction os with
  | nil =>
      intro lru minA hlru _
      exact hlru
  | cons o rest ih =>
      intro lru minA hlru hos
      simp only [findLruAux]
      split
      · exact hos o (List.mem_cons_self o rest)
      · split
        · exact ih _ _ (hos o (List.mem_cons_self o rest))
            (fun x hx => hos x (List.mem_cons_of_mem o hx))
        · exact ih _ _ hlru (fun x hx => hos x (List.mem_cons_of_mem o hx))

theorem find_lru_entry_mem_probeWindow (c : picodt_cache_t) (ch : Nat) :
    find_lru_entry c (get_cache_index ch) ∈ probeWindow ch := by
  unfold find_lru_entry
  apply findLruAux_mem
  · simp [probeWindow]
  · intro o ho
    have hlt : get_cache_index ch < PICO_DT_CACHE_SIZE := get_cache_index_lt ch
    rw [mask_eq_mod]
    fin_cases ho
    · simp [probeWindow, Nat.mod_eq_of_lt hlt]
    · simp [probeWindow]
    · simp [probeWindow]
    · simp [probeWindow]

theorem insert_entries (c : picodt_cache_t) (ch t p : Nat) (he : c.enabled = true) :
    ∃ w ∈ probeWindow ch,
      (picodt_cache_insert c ch t p).entries =
        updEntry c.entries w
          { context_hash := ch, pdf_index := p, tree_id := t, valid := true,
            access_count := c.clock % 256 } := by
  simp only [picodt_cache_insert]
  rw [if_neg (by simp [picodt_cache_is_enabled, he])]
  split
  · exact ⟨get_cache_index ch, by simp [probeWindow], rfl⟩
  · refine ⟨find_lru_entry c (get_cache_index ch),
      find_lru_entry_mem_probeWindow c ch, ?_⟩
    split <;> rfl

theorem insert_enabled (c : picodt_cache_t) (ch t p : Nat) :
    (picodt_cache_insert c ch t p).enabled = c.enabled := by
  simp only [picodt_cache_insert]
  split
  · rfl
  · split
    · rfl
    · split <;> rfl

/-! ## C1: insert followed by immediate lookup -/

/-- C1 counterexample: the cache state `cacheWithDup` is obtained by two
enabled inserts from the fresh cache; the second insert stores
`(hash 0, tree 0) ↦ 2`, no slot of hash 0's probe window is evicted by
it, yet the immediate lookup of `(0, 0)` returns the stale value 1 from
the first insert rather than the just-inserted 2. -/
theorem insert_then_lookup_stale_duplicate :
    (picodt_cache_lookup cacheWithDup 0 0).1 = some 1 ∧
    (picodt_cache_lookup cacheWithDup 0 0).1 ≠ some 2 ∧
    cacheWithDup.stats.evictions = 0 := by
  exact ⟨by decide, by decide, by decide⟩

/-- C1 amended: for every enabled cache and key, *provided no valid entry
matching `(context_hash, tree_id)` is already present in the 4-slot probe
window for that hash*, an insert followed by an immediate lookup with the
same hash and tree id succeeds and returns the inserted `pdf_index`. -/
theorem insert_then_lookup_returns_inserted (c : picodt_cache_t) (ch t p : Nat)
    (he : c.enabled = true)
    (hfree : ∀ i ∈ probeWindow ch, entry_matches (c.entries i) ch t = false) :
    (picodt_cache_lookup (picodt_cache_insert c ch t p) ch t).1 = some p := by
  obtain ⟨w, hwmem, hent⟩ := insert_entries c ch t p he
  have h256 : PICO_DT_CACHE_SIZE = 256 := rfl
  have halt : get_cache_index ch < 256 := get_cache_index_lt ch
  have hwin : probeWindow ch =
      [get_cache_index ch, (get_cache_index ch + 1) % 256,
       (get_cache_index ch + 2) % 256, (get_cache_index ch + 3) % 256] := rfl
  have hE : entry_matches
      { context_hash := ch, pdf_index := p, tree_id := t, valid := true,
        access_count := c.clock % 256 } ch t = true := by
    simp [entry_matches]
  have hc'entries : ∀ i, (picodt_cache_insert c ch t p).entries i =
      if i = w then
        { context_hash := ch, pdf_index := p, tree_id := t, valid := true,
          access_count := c.clock % 256 }
      else c.entries i := by
    intro i
    rw [hent]
    rfl
  have he' : (picodt_cache_insert c ch t p).enabled = true := by
    rw [insert_enabled]
    exact he
  have hcw : (picodt_cache_insert c ch t p).entries w =
      { context_hash := ch, pdf_index := p, tree_id := t, valid := true,
        access_count := c.clock % 256 } := by
    rw [hc'entries]
    simp
  simp only [picodt_cache_lookup]
  rw [if_neg (by simp [picodt_cache_is_enabled, he'])]
  rw [hwin] at hwmem
  simp only [List.mem_cons, List.mem_singleton, List.not_mem_nil, or_false] at hwmem
  rcases hwmem with hw | hw | hw | hw
  · -- written into the primary slot
    subst hw
    rw [hcw, if_pos hE]
  · -- written into slot index+1
    subst hw
    have hprim : (picodt_cache_insert c ch t p).entries (get_cache_index ch) =
        c.entries (get_cache_index ch) := by
      rw [hc'entries, if_neg (by omega)]
    rw [hprim, if_neg (by simp [hfree (get_cache_index ch) (by rw [hwin]; simp)])]
    have hlp : lookupProbe (picodt_cache_insert c ch t p) ch t
        (get_cache_index ch) [1, 2, 3] = some ((get_cache_index ch + 1) % 256) := by
      simp only [lookupProbe, mask256]
      rw [hcw, if_pos hE]
    rw [hlp]
    show some ((picodt_cache_insert c ch t p).entries
      ((get_cache_index ch + 1) % 256)).pdf_index = some p
    rw [hcw]
  · -- written into slot index+2
    subst hw
    have hprim : (picodt_cache_insert c ch t p).entries (get_cache_index ch) =
        c.entries (get_cache_index ch) := by
      rw [hc'entries, if_neg (by omega)]
    rw [hprim, if_neg (by simp [hfree (get_cache_index ch) (by rw [hwin]; simp)])]
    have hm1 : entry_matches ((picodt_cache_insert c ch t p).entries
        ((get_cache_index ch + 1) % 256)) ch t = false := by
      have hne : ¬((get_cache_index ch + 1) % 256 = (get_cache_index ch + 2) % 256) := by
        omega
      rw [hc'entries, if_neg hne]
      exact hfree _ (by rw [hwin]; simp)
    have hlp : lookupProbe (picodt_cache_insert c ch t p) ch t
        (get_cache_index ch) [1, 2, 3] = some ((get_cache_index ch + 2) % 256) := by
      simp only [lookupProbe, mask256]
      rw [hm1]
      rw [if_neg (by simp), hcw, if_pos hE]
    rw [hlp]
    show some ((picodt_cache_insert c ch t p).entries
      ((get_cache_index ch + 2) % 256)).pdf_index = some p
    rw [hcw]
  · -- written into slot index+3
    subst hw
    have hprim : (picodt_cache_insert c ch t p).entries (get_cache_index ch) =
        c.entries (get_cache_index ch) := by
      rw [hc'entries, if_neg (by omega)]
    rw [hprim, if_neg (by simp [hfree (get_cache_index ch) (by rw [hwin]; simp)])]
    have hm1 : entry_matches ((picodt_cache_insert c ch t p).entries
        ((get_cache_index ch + 1) % 256)) ch t = false := by
      have hne : ¬((get_cache_index ch + 1) % 256 = (get_cache_index ch + 3) % 256) := by
        omega
      rw [hc'entries, if_neg hne]
      exact hfree _ (by rw [hwin]; simp)
    have hm2 : entry_matches ((picodt_cache_insert c ch t p).entries
        ((get_cache_index ch + 2) % 256)) ch t = false := by
      have hne : ¬((get_cache_index ch + 2) % 256 = (get_cache_index ch + 3) % 256) := by
        omega
      rw [hc'entries, if_neg hne]
      exact hfree _ (by rw [hwin]; simp)
    have hlp : lookupProbe (picodt_cache_insert c ch t p) ch t
        (get_cache_index ch) [1, 2, 3] = some ((get_cache_index ch + 3) % 256) := by
      simp only [lookupProbe, mask256]
      rw [hm1]
      rw [if_neg (by simp)]
      rw [hm2]
      rw [if_neg (by simp), hcw, if_pos hE]
    rw [hlp]
    show some ((picodt_cache_insert c ch t p).entries
      ((get_cache_index ch + 3) % 256)).pdf_index = some p
    rw [hcw]

/-- Witness for `insert_then_lookup_returns_inserted`: inserting
`(5, 7) ↦ 9` into the fresh cache and looking it up returns 9. -/
theorem insert_then_lookup_returns_inserted_witness :
    (picodt_cache_lookup
      (picodt_cache_insert picodt_cache_init_state 5 7 9) 5 7).1 = some 9 :=
  insert_then_lookup_returns_inserted picodt_cache_init_state 5 7 9
    (by decide) (by decide)

/-! ## C5: no-duplicate invariant -/

theorem lookup_preserves_matches (c : picodt_cache_t) (ch t i ch2 t2 : Nat) :
    entry_matches ((picodt_cache_lookup c ch t).2.entries i) ch2 t2 =
      entry_matches (c.entries i) ch2 t2 := by
  simp only [picodt_cache_lookup]
  split
  · rfl
  · split
    · simp only [bumpAccess, updEntry]
      split
      · next h => rw [h]; rfl
      · rfl
    · split
      · simp only [bumpAccess, updEntry]
        split
        · next h => rw [h]; rfl
        · rfl
      · rfl

theorem init_noDup : cacheNoDup picodt_cache_init_state := by
  intro ch2 t2 i j hi hj hmi hmj
  exfalso
  simp [picodt_cache_init_state, entry_matches] at hmi

theorem clear_noDup (c : picodt_cache_t) : cacheNoDup (picodt_cache_clear c) := by
  intro ch2 t2 i j hi hj hmi hmj
  exfalso
  simp [picodt_cache_clear, entry_matches] at hmi

theorem insert_preserves_noDup (c : picodt_cache_t) (ch t p : Nat)
    (hfree : ∀ i ∈ probeWindow ch, entry_matches (c.entries i) ch t = false)
    (hnd : cacheNoDup c) :
    cacheNoDup (picodt_cache_insert c ch t p) := by
  by_cases he : c.enabled = true
  · obtain ⟨w, hwmem, hent⟩ := insert_entries c ch t p he
    intro ch2 t2 i j hi hj hmi hmj
    have hupd : ∀ k, (picodt_cache_insert c ch t p).entries k =
        if k = w then
          { context_hash := ch, pdf_index := p, tree_id := t, valid := true,
            access_count := c.clock % 256 }
        else c.entries k := fun k => by rw [hent]; rfl
    by_cases hiw : i = w
    · by_cases hjw : j = w
      · rw [hiw, hjw]
      · exfalso
        rw [hupd i, if_pos hiw] at hmi
        simp only [entry_matches, Bool.and_eq_true, beq_iff_eq] at hmi
        obtain ⟨⟨-, hch⟩, ht⟩ := hmi
        subst hch
        subst ht
        rw [hupd j, if_neg hjw] at hmj
        rw [hfree j hj] at hmj
        cases hmj
    · by_cases hjw : j = w
      · exfalso
        rw [hupd j, if_pos hjw] at hmj
        simp only [entry_matches, Bool.and_eq_true, beq_iff_eq] at hmj
        obtain ⟨⟨-, hch⟩, ht⟩ := hmj
        subst hch
        subst ht
        rw [hupd i, if_neg hiw] at hmi
        rw [hfree i hi] at hmi
        cases hmi
      · rw [hupd i, if_neg hiw] at hmi
        rw [hupd j, if_neg hjw] at hmj
        exact hnd ch2 t2 i j hi hj hmi hmj
  · have hnoop : picodt_cache_insert c ch t p = c := by
      have hef : picodt_cache_is_enabled c = false := by
        simp only [picodt_cache_is_enabled]
        revert he
        cases c.enabled <;> simp
      simp only [picodt_cache_insert]
      rw [if_pos hef]
    rw [hnoop]
    exact hnd

/-- C5 counterexample: the duplicate-key state `cacheWithDup` is reachable
from initialization by two inserts, and it carries two distinct valid
entries (slots 0 and 1) matching the same `(context_hash, tree_id) = (0, 0)`
inside that hash's probe window. -/
theorem cache_duplicate_entries_reachable :
    CacheReachAny cacheWithDup ∧
    0 ∈ probeWindow 0 ∧ 1 ∈ probeWindow 0 ∧
    entry_matches (cacheWithDup.entries 0) 0 0 = true ∧
    entry_matches (cacheWithDup.entries 1) 0 0 = true ∧
    ¬ cacheNoDup cacheWithDup := by
  refine ⟨?_, by decide, by decide, by decide, by decide, ?_⟩
  · exact CacheReachAny.insert _ 0 0 2 (CacheReachAny.insert _ 0 0 1 CacheReachAny.init)
  · intro hnd
    have h01 := hnd 0 0 0 1 (by decide) (by decide) (by decide) (by decide)
    exact absurd h01 (by decide)

/-- C5 amended: in every cache state reachable from initialization by
lookups, clears, and inserts *of keys not currently present in their probe
window* (the discipline of inserting only after a lookup miss), at most
one valid entry per `(context_hash, tree_id)` exists among the 4 probed
slots for that hash. -/
theorem cache_no_dup_invariant (c : picodt_cache_t) (hr : CacheReach c) :
    cacheNoDup c := by
  induction hr with
  | init => exact init_noDup
  | clear c hc ih => exact clear_noDup c
  | lookup c ch t hc ih =>
      intro ch2 t2 i j hi hj hmi hmj
      rw [lookup_preserves_matches] at hmi hmj
      exact ih ch2 t2 i j hi hj hmi hmj
  | insert c ch t p hc hfree ih => exact insert_preserves_noDup c ch t p hfree ih

/-- Witness for `cache_no_dup_invariant` on the reachable state obtained
by one disciplined insert into the fresh cache. -/
theorem cache_no_dup_invariant_witness :
    cacheNoDup (picodt_cache_insert picodt_cache_init_state 0 0 1) :=
  cache_no_dup_invariant _
    (CacheReach.insert picodt_cache_init_state 0 0 1 CacheReach.init (by decide))

end Pico

